import Mathlib

/-!
Verification of the HTTP MCP connection-management layer:
`src/client/http_mcp_manager.py`, `src/client/utils.py`,
`src/shared/models.py`, `src/client/config.py`.

Python dictionaries are embedded as association lists (insertion order
preserved, keys unique by construction of the operations).  Python
exceptions are embedded as `PyErr` values (type name plus message) and
fallible code returns `Except PyErr α`.  Wall-clock time and delays are
embedded as rationals.
-/

/-- A Python exception value: the exception's type name and its message
(`str(e)`). -/
structure PyErr where
  ty : String
  msg : String
deriving DecidableEq, Repr

/-- Dictionary lookup (`d[k]` / `d.get(k)`): first binding for the key. -/
def dlookup {α : Type} : List (String × α) → String → Option α
  | [], _ => none
  | (k', v) :: rest, k => if k' = k then some v else dlookup rest k

/-- Dictionary assignment `d[k] = v`: replace the binding in place if the
key is present, otherwise append it (Python dicts preserve insertion
order). -/
def dictSet {α : Type} : List (String × α) → String → α → List (String × α)
  | [], k, v => [(k, v)]
  | (k', v') :: rest, k, v =>
    if k' = k then (k, v) :: rest else (k', v') :: dictSet rest k v

/-- Dictionary deletion `del d[k]` (used only under an `if k in d` guard,
so deleting an absent key is a no-op here). -/
def dictErase {α : Type} : List (String × α) → String → List (String × α)
  | [], _ => []
  | (k', v') :: rest, k =>
    if k' = k then dictErase rest k else (k', v') :: dictErase rest k

/-- In-place mutation of the value stored under a key
(`d[k].method(...)` under an `if k in d` guard): no-op if absent. -/
def dictModify {α : Type} : List (String × α) → String → (α → α) → List (String × α)
  | [], _, _ => []
  | (k', v') :: rest, k, f =>
    if k' = k then (k', f v') :: rest else (k', v') :: dictModify rest k f

/-- The keys of a dictionary, in insertion order (`d.keys()`). -/
def dkeys {α : Type} (d : List (String × α)) : List String := d.map Prod.fst

theorem dlookup_dictSet {α : Type} (d : List (String × α)) (k k' : String) (v : α) :
    dlookup (dictSet d k v) k' = if k = k' then some v else dlookup d k' := by
  induction d with
  | nil => simp [dictSet, dlookup]
  | cons hd tl ih =>
    obtain ⟨k0, v0⟩ := hd
    by_cases h0 : k0 = k
    · subst h0
      by_cases h1 : k0 = k'
      · subst h1; simp [dictSet, dlookup]
      · simp [dictSet, dlookup, h1]
    · by_cases h1 : k0 = k'
      · subst h1
        have : ¬ k = k0 := fun h => h0 h.symm
        simp [dictSet, dlookup, h0, this]
      · simp [dictSet, dlookup, h0, h1, ih]

theorem dlookup_dictErase {α : Type} (d : List (String × α)) (k k' : String) :
    dlookup (dictErase d k) k' = if k = k' then none else dlookup d k' := by
  induction d with
  | nil => simp [dictErase, dlookup]
  | cons hd tl ih =>
    obtain ⟨k0, v0⟩ := hd
    by_cases h0 : k0 = k
    · subst h0
      by_cases h1 : k0 = k'
      · subst h1; simp [dictErase, dlookup, ih]
      · simp [dictErase, dlookup, h1, ih]
    · by_cases h1 : k0 = k'
      · subst h1
        have : ¬ k = k0 := fun h => h0 h.symm
        simp [dictErase, dlookup, h0, this]
      · simp [dictErase, dlookup, h0, h1, ih]

theorem dlookup_dictModify {α : Type} (d : List (String × α)) (k k' : String) (f : α → α) :
    dlookup (dictModify d k f) k' =
      if k = k' then (dlookup d k').map f else dlookup d k' := by
  induction d with
  | nil => simp [dictModify, dlookup]
  | cons hd tl ih =>
    obtain ⟨k0, v0⟩ := hd
    by_cases h0 : k0 = k
    · subst h0
      by_cases h1 : k0 = k'
      · subst h1; simp [dictModify, dlookup]
      · simp [dictModify, dlookup, h1, ih]
    · by_cases h1 : k0 = k'
      · subst h1
        have : ¬ k = k0 := fun h => h0 h.symm
        simp [dictModify, dlookup, h0, this]
      · simp [dictModify, dlookup, h0, h1, ih]

/-! ## Retry with exponential backoff (`src/client/utils.py`, lines 33-89) -/

/-- `RetryConfig` (utils.py lines 33-47).  Source defaults:
`max_attempts=3, base_delay=1.0, max_delay=30.0, exponential_base=2.0,
jitter=True`. -/
structure RetryConfig where
  max_attempts : Nat
  base_delay : ℚ
  max_delay : ℚ
  exponential_base : ℚ
  jitter : Bool
deriving DecidableEq, Repr

/-- The backoff delay computed at a given (0-based) attempt index
(utils.py lines 69-72): `min(base_delay * exponential_base ** attempt,
max_delay)`. -/
def backoffDelay (cfg : RetryConfig) (attempt : Nat) : ℚ :=
  min (cfg.base_delay * cfg.exponential_base ^ attempt) cfg.max_delay

/-- The loop body of `retry_with_exponential_backoff` (utils.py lines
53-86), for `fuel + 1` remaining attempts (so the decorator runs it with
`fuel = max_attempts - 1`; the source requires `max_attempts ≥ 1`).
`jf attempt` is the uniform random jitter factor in `[0.5, 1.0]` drawn at
that attempt (`0.5 + random.random() * 0.5`), applied only when
`cfg.jitter` is set.  The result records the sleeps performed (in
seconds), the number of invocations of the wrapped operation, and the
final outcome; on exhausting the attempts the exception of the final
attempt is re-raised unchanged. -/
def retryGo {E T : Type} (cfg : RetryConfig) (jf : Nat → ℚ) (f : Nat → Except E T) :
    Nat → Nat → List ℚ × Nat × Except E T
  | attempt, 0 => ([], 1, f attempt)
  | attempt, fuel + 1 =>
    match f attempt with
    | .ok v => ([], 1, .ok v)
    | .error _ =>
      let d0 := backoffDelay cfg attempt
      let d := if cfg.jitter then d0 * jf attempt else d0
      let rest := retryGo cfg jf f (attempt + 1) fuel
      (d :: rest.1, rest.2.1 + 1, rest.2.2)

/-- `retry_with_exponential_backoff(config)(func)` applied to one call:
attempts start at index 0 and at most `max_attempts` are made. -/
def retryRun {E T : Type} (cfg : RetryConfig) (jf : Nat → ℚ) (f : Nat → Except E T) :
    List ℚ × Nat × Except E T :=
  retryGo cfg jf f 0 (cfg.max_attempts - 1)

/-- The retry configuration named by the spec's testable property:
`max_attempts=3, base_delay=1.0, exponential_base=2.0, jitter=false`
(`max_delay` keeps its source default 30.0). -/
def retryCfgC2 : RetryConfig :=
  { max_attempts := 3, base_delay := 1, max_delay := 30
    exponential_base := 2, jitter := false }

/-- Claim C2: with `max_attempts=3, base_delay=1.0, exponential_base=2.0,
jitter=false`, if every attempt fails then exactly two sleeps of 1.0s and
2.0s occur between the three attempts and the exception of the final
attempt is re-raised unchanged; if any attempt succeeds its result is
returned immediately with no further attempts. -/
theorem retry_c2 {E T : Type} (jf : Nat → ℚ) (f : Nat → Except E T)
    (e0 e1 e2 : E) (v : T) :
    (f 0 = .error e0 → f 1 = .error e1 → f 2 = .error e2 →
      retryRun retryCfgC2 jf f = ([1, 2], 3, Except.error e2))
    ∧ (f 0 = .ok v → retryRun retryCfgC2 jf f = ([], 1, Except.ok v))
    ∧ (f 0 = .error e0 → f 1 = .ok v →
      retryRun retryCfgC2 jf f = ([1], 2, Except.ok v))
    ∧ (f 0 = .error e0 → f 1 = .error e1 → f 2 = .ok v →
      retryRun retryCfgC2 jf f = ([1, 2], 3, Except.ok v)) := by
  refine ⟨?_, ?_, ?_, ?_⟩
  · intro h0 h1 h2
    simp [retryRun, retryCfgC2, retryGo, h0, h1, h2, backoffDelay]
    all_goals norm_num
  · intro h0
    simp [retryRun, retryCfgC2, retryGo, h0]
  · intro h0 h1
    simp [retryRun, retryCfgC2, retryGo, h0, h1, backoffDelay]
  · intro h0 h1 h2
    simp [retryRun, retryCfgC2, retryGo, h0, h1, h2, backoffDelay]
    all_goals norm_num

/-- Witness for C2 at a concrete always-failing operation. -/
theorem retry_c2_witness :
    retryRun retryCfgC2 (fun _ => 1)
        (fun _ => (Except.error "boom" : Except String Nat)) =
      ([1, 2], 3, Except.error "boom") :=
  (retry_c2 (fun _ => 1) (fun _ => (Except.error "boom" : Except String Nat))
    "boom" "boom" "boom" 0).1 rfl rfl rfl

/-! ## Circuit breaker (`src/client/utils.py`, lines 91-149) -/

/-- Constructor parameters of `CircuitBreaker` (utils.py lines 93-101).
`expected_exception` is `Exception` at every use site, so every `PyErr`
counts as expected. -/
structure CBConfig where
  failure_threshold : Nat
  recovery_timeout : ℚ
deriving DecidableEq, Repr

/-- Mutable breaker state (utils.py lines 103-105). The `state` field
holds one of the source's literal strings "CLOSED", "OPEN",
"HALF_OPEN". -/
structure CBState where
  failure_count : Nat
  last_failure_time : Option ℚ
  state : String
deriving DecidableEq, Repr

/-- The breaker state at construction time (utils.py lines 103-105):
`failure_count = 0`, `last_failure_time = None`, `state = "CLOSED"`. -/
def CBState.fresh : CBState :=
  { failure_count := 0, last_failure_time := none, state := "CLOSED" }

/-- `CircuitBreaker._should_attempt_reset` (utils.py lines 131-136). -/
def cbShouldAttemptReset (cfg : CBConfig) (s : CBState) (now : ℚ) : Bool :=
  match s.last_failure_time with
  | none => false
  | some t => now - t ≥ cfg.recovery_timeout

/-- `CircuitBreaker._on_success` (utils.py lines 138-141). -/
def cbOnSuccess (s : CBState) : CBState :=
  { s with failure_count := 0, state := "CLOSED" }

/-- `CircuitBreaker._on_failure` (utils.py lines 143-149). -/
def cbOnFailure (cfg : CBConfig) (s : CBState) (now : ℚ) : CBState :=
  let s' := { s with failure_count := s.failure_count + 1, last_failure_time := some now }
  if s'.failure_count ≥ cfg.failure_threshold then { s' with state := "OPEN" } else s'

/-- The exception raised when the breaker rejects a call (utils.py line
114): `Exception("Circuit breaker is OPEN")`. -/
def circuitOpenError : PyErr :=
  { ty := "Exception", msg := "Circuit breaker is OPEN" }

/-- One invocation of the wrapper produced by `CircuitBreaker.__call__`
(utils.py lines 107-129), at wall-clock time `now`.  The wrapped
operation is a state transformer `body` on `σ` (its side effects on the
manager) returning an outcome.  Result: breaker state after the call,
`σ` after the call, the call's outcome, and whether the wrapped
operation was invoked at all. -/
def cbRun {σ T : Type} (cfg : CBConfig) (now : ℚ) (s : CBState)
    (body : σ → σ × Except PyErr T) (st : σ) :
    CBState × σ × Except PyErr T × Bool :=
  if s.state = "OPEN" ∧ cbShouldAttemptReset cfg s now = false then
    (s, st, .error circuitOpenError, false)
  else
    let s1 := if s.state = "OPEN" then { s with state := "HALF_OPEN" } else s
    match body st with
    | (st', .ok v) => (cbOnSuccess s1, st', .ok v, true)
    | (st', .error e) => (cbOnFailure cfg s1 now, st', .error e, true)

/-- A wrapped operation that fails with `e`, leaving `σ` unchanged. -/
def cbFailOp (e : PyErr) : Unit → Unit × Except PyErr Unit :=
  fun u => (u, .error e)

/-- A wrapped operation that succeeds, leaving `σ` unchanged. -/
def cbOkOp : Unit → Unit × Except PyErr Unit :=
  fun u => (u, .ok ())

/-- Breaker state after three consecutive failed calls (at times `t1`,
`t2`, `t3`) starting from the fresh state, with threshold 3. -/
def cbAfter3 (rt t1 t2 t3 : ℚ) (e1 e2 e3 : PyErr) : CBState :=
  (cbRun ⟨3, rt⟩ t3
    ((cbRun ⟨3, rt⟩ t2
      ((cbRun ⟨3, rt⟩ t1 CBState.fresh (cbFailOp e1) ()).1)
      (cbFailOp e2) ()).1)
    (cbFailOp e3) ()).1

/-- Claim C3: with `failure_threshold = 3`, three consecutive failures
open the breaker; while open and before `recovery_timeout` has elapsed
since the last failure, every call fails with the distinct circuit-open
error without the wrapped operation being invoked and without changing
state; once the timeout has elapsed one trial call is allowed (the
operation runs), and a successful trial yields `CLOSED` with failure
count 0 while a failed trial yields `OPEN` again. -/
theorem circuit_breaker_c3 (rt t1 t2 t3 t4 t5 : ℚ) (e1 e2 e3 e5 : PyErr)
    (h4 : t4 - t3 < rt) (h5 : rt ≤ t5 - t3) :
    cbAfter3 rt t1 t2 t3 e1 e2 e3 = ⟨3, some t3, "OPEN"⟩
    ∧ (∀ (body : Unit → Unit × Except PyErr Unit),
        cbRun ⟨3, rt⟩ t4 (cbAfter3 rt t1 t2 t3 e1 e2 e3) body () =
          (⟨3, some t3, "OPEN"⟩, (), .error circuitOpenError, false))
    ∧ cbRun ⟨3, rt⟩ t5 (cbAfter3 rt t1 t2 t3 e1 e2 e3) cbOkOp () =
        (⟨0, some t3, "CLOSED"⟩, (), .ok (), true)
    ∧ cbRun ⟨3, rt⟩ t5 (cbAfter3 rt t1 t2 t3 e1 e2 e3) (cbFailOp e5) () =
        (⟨4, some t5, "OPEN"⟩, (), .error e5, true) := by
  have hopen : cbAfter3 rt t1 t2 t3 e1 e2 e3 = ⟨3, some t3, "OPEN"⟩ := by
    simp [cbAfter3, cbRun, CBState.fresh, cbFailOp, cbOnFailure]
  refine ⟨hopen, ?_, ?_, ?_⟩
  · intro body
    rw [hopen]
    have hreset : cbShouldAttemptReset ⟨3, rt⟩ ⟨3, some t3, "OPEN"⟩ t4 = false := by
      simp [cbShouldAttemptReset]
      linarith
    simp [cbRun, hreset]
  · rw [hopen]
    have hreset : cbShouldAttemptReset ⟨3, rt⟩ ⟨3, some t3, "OPEN"⟩ t5 = true := by
      simp [cbShouldAttemptReset]
      linarith
    simp [cbRun, hreset, cbOkOp, cbOnSuccess]
  · rw [hopen]
    have hreset : cbShouldAttemptReset ⟨3, rt⟩ ⟨3, some t3, "OPEN"⟩ t5 = true := by
      simp [cbShouldAttemptReset]
      linarith
    simp [cbRun, hreset, cbFailOp, cbOnFailure]

/-- Witness for C3 at concrete times (`recovery_timeout = 30`, failures
at times 1, 2, 3, rejected call at time 10, trial call at time 40). -/
theorem circuit_breaker_c3_witness :
    cbAfter3 30 1 2 3 ⟨"E", "a"⟩ ⟨"E", "b"⟩ ⟨"E", "c"⟩ = ⟨3, some 3, "OPEN"⟩
    ∧ (∀ (body : Unit → Unit × Except PyErr Unit),
        cbRun ⟨3, 30⟩ 10 (cbAfter3 30 1 2 3 ⟨"E", "a"⟩ ⟨"E", "b"⟩ ⟨"E", "c"⟩) body () =
          (⟨3, some 3, "OPEN"⟩, (), .error circuitOpenError, false))
    ∧ cbRun ⟨3, 30⟩ 40 (cbAfter3 30 1 2 3 ⟨"E", "a"⟩ ⟨"E", "b"⟩ ⟨"E", "c"⟩) cbOkOp () =
        (⟨0, some 3, "CLOSED"⟩, (), .ok (), true)
    ∧ cbRun ⟨3, 30⟩ 40 (cbAfter3 30 1 2 3 ⟨"E", "a"⟩ ⟨"E", "b"⟩ ⟨"E", "c"⟩) (cbFailOp ⟨"E", "e"⟩) () =
        (⟨4, some 40, "OPEN"⟩, (), .error ⟨"E", "e"⟩, true) :=
  circuit_breaker_c3 30 1 2 3 10 40 ⟨"E", "a"⟩ ⟨"E", "b"⟩ ⟨"E", "c"⟩ ⟨"E", "e"⟩
    (by norm_num) (by norm_num)

/-! ## Data model (`src/shared/models.py`, `src/client/config.py`) -/

namespace ConnectionStatus

/-- `ConnectionStatus.DISCONNECTED.value` (models.py line 15). -/
def DISCONNECTED : String := "disconnected"

/-- `ConnectionStatus.CONNECTING.value` (models.py line 16). -/
def CONNECTING : String := "connecting"

/-- `ConnectionStatus.CONNECTED.value` (models.py line 17). -/
def CONNECTED : String := "connected"

/-- `ConnectionStatus.ERROR.value` (models.py line 18). -/
def ERROR : String := "error"

end ConnectionStatus

/-- `ServerConfig` (config.py lines 15-23), restricted to the fields the
HTTP path uses (`validate_config` guarantees `host`/`port` are present
for every HTTP server). -/
structure ServerConfig where
  name : String
  transport : String
  host : String
  port : Nat
deriving DecidableEq, Repr

/-- The static server map built by `load_config` (config.py lines 50-64). -/
def configServers : List (String × ServerConfig) :=
  [("personal_assistant", ⟨"personal_assistant", "http", "127.0.0.1", 8001⟩),
   ("knowledge_base", ⟨"knowledge_base", "http", "127.0.0.1", 8002⟩)]

/-- The fields of the `MCPConnection` dataclass as actually declared in
`src/shared/models.py` lines 21-31, in order. -/
def mcpConnectionFields : List String :=
  ["name", "host", "port", "status", "error_message", "tools", "resources", "prompts"]

/-- The `MCPConnection` fields without defaults (models.py lines 24-26):
the required arguments of the generated `__init__`. -/
def mcpConnectionRequired : List String := ["name", "host", "port"]

/-- The methods defined on `MCPConnection` (models.py lines 33-44). -/
def mcpConnectionMethods : List String := ["to_dict"]

/-- The keyword arguments `HTTPMCPManager.connect_server` passes to
`MCPConnection(...)` (http_mcp_manager.py lines 86-92). -/
def connectServerCtorKwargs : List String :=
  ["server_name", "transport_type", "connection_status", "host", "port"]

/-- The check CPython performs on a keyword-argument call of a generated
dataclass `__init__`: an unexpected keyword raises `TypeError` (reported
first), then any missing required argument raises `TypeError`. -/
def dataclassCtorCheck (fields required kwargs : List String) : Except PyErr Unit :=
  match kwargs.find? (fun k => !fields.contains k) with
  | some k => .error ⟨"TypeError", "unexpected keyword argument " ++ k⟩
  | none =>
    match required.find? (fun k => !kwargs.contains k) with
    | some k => .error ⟨"TypeError", "missing required argument " ++ k⟩
    | none => .ok ()

/-- A cached capability snapshot for one server: the three lists stored
by `_introspect_server` (individual descriptors kept opaque as
strings). -/
structure Capabilities where
  tools : List String
  resources : List String
  prompts : List String
deriving DecidableEq, Repr

/-- Modelled from the spec: the Connection record as the manager uses
it.  `shared/models.py`'s `MCPConnection` does not declare the
`server_name`/`transport_type`/`connection_status` constructor
arguments, the `last_ping`/`capabilities` attributes, or the
`update_status`/`is_connected` methods that `http_mcp_manager.py` relies
on (see claim C9); this record follows spec §3 "Connection": server
name, transport kind, status, optional error message, timestamp of last
successful contact, cached capability set reference. -/
structure Conn where
  server_name : String
  transport_type : String
  status : String
  error_message : Option String
  host : String
  port : Nat
  last_ping : Option ℚ
  capabilities : Option Capabilities
deriving DecidableEq, Repr

/-- Modelled from the spec: `MCPConnection.update_status(status,
error_message=None)` is called by the manager (http_mcp_manager.py lines
107, 112, 183, 269, ...) but missing from `shared/models.py`; per spec
§3 the record is "mutated on every status-changing event", storing the
new status and the optional error message. -/
def Conn.update_status (c : Conn) (status : String) (error_message : Option String) : Conn :=
  { c with status := status, error_message := error_message }

/-- Modelled from the spec: `MCPConnection.is_connected()` is called by
`is_server_connected` (http_mcp_manager.py line 222) but missing from
`shared/models.py`; it holds exactly when the record's status is
`connected`. -/
def Conn.is_connected (c : Conn) : Bool := c.status == ConnectionStatus.CONNECTED

/-! ## The manager (`src/client/http_mcp_manager.py`) -/

/-- The mutable state of `HTTPMCPManager` (lines 22-28): the three
dictionaries.  The HTTP client and the asyncio lock are not part of the
functional state. -/
structure ManagerState where
  connections : List (String × Conn)
  base_urls : List (String × String)
  capabilities_cache : List (String × Capabilities)
deriving DecidableEq, Repr

/-- A freshly constructed manager (`HTTPMCPManager.__init__`). -/
def ManagerState.empty : ManagerState := ⟨[], [], []⟩

/-- A parsed JSON envelope `{"success": bool, <payload>|"error"}` from a
2xx POST; `payload` stands for the `result`/`content`/`prompt` field of
the respective endpoint. -/
structure RpcResp where
  success : Bool
  payload : Option String
  error : Option String
deriving DecidableEq, Repr

/-- The observable behaviour of one remote server's HTTP surface for one
scenario.  `Except.error` models a transport-level failure (timeout,
connection refused, non-2xx via `raise_for_status`, or a JSON decode
error); the list endpoints are indexed by the retry attempt that issues
them and already include the client-side `get(key, [])` defaulting. -/
structure ServerHttp where
  health : Except PyErr Unit
  toolsList : Nat → Except PyErr (List String)
  resourcesList : Nat → Except PyErr (List String)
  promptsList : Nat → Except PyErr (List String)
  toolCall : String → Except PyErr RpcResp
  resourceRead : String → Except PyErr RpcResp
  promptGet : String → Except PyErr RpcResp

/-- `self.connections[name].update_status(status, msg)` under its
`if name in self.connections` guard. -/
def setStatusM (st : ManagerState) (name status : String) (err : Option String) : ManagerState :=
  { st with connections := dictModify st.connections name (fun c => c.update_status status err) }

/-- `self.connections[name].last_ping = datetime.utcnow()` under its
`if name in self.connections` guard. -/
def setLastPingM (st : ManagerState) (name : String) (now : ℚ) : ManagerState :=
  { st with connections := dictModify st.connections name (fun c => { c with last_ping := some now }) }

/-- `HTTPMCPManager.get_connection_status` (lines 211-213). -/
def get_connection_status (st : ManagerState) (name : String) : Option Conn :=
  dlookup st.connections name

/-- `HTTPMCPManager.is_server_connected` (lines 219-222). -/
def is_server_connected (st : ManagerState) (name : String) : Bool :=
  match dlookup st.connections name with
  | none => false
  | some c => c.is_connected

/-- One attempt of the body of `HTTPMCPManager._introspect_server`
(lines 136-175): three sequential GETs; the capability cache and the
connection record are written only after all three succeed; any failure
re-raises with no state change. -/
def introspectBody (env : String → ServerHttp) (attempt : Nat) (st : ManagerState)
    (name : String) : ManagerState × Except PyErr Unit :=
  match dlookup st.base_urls name with
  | none => (st, .error ⟨"KeyError", name⟩)
  | some _ =>
    match (env name).toolsList attempt with
    | .error e => (st, .error e)
    | .ok ts =>
      match (env name).resourcesList attempt with
      | .error e => (st, .error e)
      | .ok rs =>
        match (env name).promptsList attempt with
        | .error e => (st, .error e)
        | .ok ps =>
          let caps : Capabilities := ⟨ts, rs, ps⟩
          let st1 := { st with capabilities_cache := dictSet st.capabilities_cache name caps }
          let st2 := { st1 with
            connections := dictModify st1.connections name (fun c => { c with capabilities := some caps }) }
          (st2, .ok ())

/-- The loop of `retry_with_exponential_backoff` threaded through a
stateful attempt (the sleeps do not touch the state): `fuel` retries
remain after the current attempt, so a decorator with
`max_attempts = n ≥ 1` runs `retryRunSt f 0 (n - 1)`. -/
def retryRunSt {σ E α : Type} (f : Nat → σ → σ × Except E α) :
    Nat → Nat → σ → σ × Except E α
  | attempt, 0, st => f attempt st
  | attempt, fuel + 1, st =>
    match f attempt st with
    | (st', .ok v) => (st', .ok v)
    | (st', .error _) => retryRunSt f (attempt + 1) fuel st'

/-- `_introspect_server` with its decorator
`@retry_with_exponential_backoff(RetryConfig(max_attempts=3))` (line
135): up to three attempts. -/
def introspectRetried (env : String → ServerHttp) (st : ManagerState) (name : String) :
    ManagerState × Except PyErr Unit :=
  retryRunSt (fun i s => introspectBody env i s name) 0 2 st

/-- `HTTPMCPManager.connect_server` (lines 81-117) over the modelled
connection record: create the record in `connecting` status, store it,
store the base URL, health-check, introspect (retried); set `connected`
on success; on any failure set `error` with the message and re-raise. -/
def connect_server (env : String → ServerHttp) (st : ManagerState) (name : String)
    (cfg : ServerConfig) : ManagerState × Except PyErr Unit :=
  let conn : Conn :=
    { server_name := name, transport_type := "http",
      status := ConnectionStatus.CONNECTING, error_message := none,
      host := cfg.host, port := cfg.port, last_ping := none, capabilities := none }
  let st1 : ManagerState := { st with connections := dictSet st.connections name conn }
  let url : String := "http://" ++ cfg.host ++ ":" ++ toString cfg.port
  let st2 : ManagerState := { st1 with base_urls := dictSet st1.base_urls name url }
  match (env name).health with
  | .error e => (setStatusM st2 name ConnectionStatus.ERROR (some e.msg), .error e)
  | .ok _ =>
    match introspectRetried env st2 name with
    | (st3, .error e) => (setStatusM st3 name ConnectionStatus.ERROR (some e.msg), .error e)
    | (st3, .ok _) => (setStatusM st3 name ConnectionStatus.CONNECTED none, .ok ())

/-- `HTTPMCPManager.initialize` (lines 70-79): attempt `connect_server`
for every configured server, catching (and logging) each failure so the
loop continues with the remaining servers. -/
def initManager (env : String → ServerHttp) (servers : List (String × ServerConfig))
    (st : ManagerState) : ManagerState :=
  servers.foldl (fun s p => (connect_server env s p.1 p.2).1) st

/-- `connect_server` as it actually executes against the real
`MCPConnection` dataclass of `shared/models.py`: the record construction
(lines 86-92) is checked against the dataclass's generated `__init__`
before anything is stored; only if it were accepted would the modelled
connect path run. -/
def connect_server_actual (env : String → ServerHttp) (st : ManagerState)
    (name : String) (cfg : ServerConfig) : ManagerState × Except PyErr Unit :=
  match dataclassCtorCheck mcpConnectionFields mcpConnectionRequired connectServerCtorKwargs with
  | .error e => (st, .error e)
  | .ok _ => connect_server env st name cfg

/-- `HTTPMCPManager.disconnect_server` (lines 177-198): status to
`disconnected` (record kept), base-URL mapping and capability cache
entry removed. -/
def disconnect_server (st : ManagerState) (name : String) : ManagerState :=
  let st1 := setStatusM st name ConnectionStatus.DISCONNECTED none
  let st2 := { st1 with base_urls := dictErase st1.base_urls name }
  { st2 with capabilities_cache := dictErase st2.capabilities_cache name }

/-- `HTTPMCPManager.get_available_tools` (lines 383-389): tools of every
cached server that is currently connected, in cache order. -/
def get_available_tools (st : ManagerState) : List (String × List String) :=
  (st.capabilities_cache.filter (fun kv => is_server_connected st kv.1)).map
    (fun kv => (kv.1, kv.2.tools))

/-- `HTTPMCPManager.refresh_capabilities(name)` with an explicit server
(lines 360-362): introspect only when connected, the introspection
failure propagating.  The last component records the servers on which
`_introspect_server` was invoked. -/
def refreshOne (env : String → ServerHttp) (st : ManagerState) (name : String) :
    ManagerState × Except PyErr Unit × List String :=
  if is_server_connected st name then
    let r := introspectRetried env st name
    (r.1, r.2, [name])
  else (st, .ok (), [])

/-- The bulk branch of `refresh_capabilities` (lines 363-369): iterate
the base-URL keys, introspecting each connected one, catching and
logging per-server failures.  The second component records the servers
on which `_introspect_server` was invoked. -/
def refreshAll (env : String → ServerHttp) (st : ManagerState) :
    ManagerState × List String :=
  (dkeys st.base_urls).foldl
    (fun acc name =>
      if is_server_connected acc.1 name then
        ((introspectRetried env acc.1 name).1, acc.2 ++ [name])
      else acc)
    (st, [])

/-- `HTTPMCPManager.refresh_capabilities` (lines 358-369). -/
def refresh_capabilities (env : String → ServerHttp) (st : ManagerState)
    (server : Option String) : ManagerState × Except PyErr Unit × List String :=
  match server with
  | some name => refreshOne env st name
  | none =>
    let r := refreshAll env st
    (r.1, .ok (), r.2)

deriving instance DecidableEq for Except

/-- Outcome of one RPC method body: manager state afterwards, the raised
or returned value, and how many HTTP POSTs were performed. -/
structure BodyOut (T : Type) where
  mgr : ManagerState
  result : Except PyErr T
  posts : Nat
deriving DecidableEq, Repr

/-- The body of `HTTPMCPManager.call_tool` (lines 233-273), inside its
breaker: the not-connected check raises before any POST and outside the
`try` (so without a status write); on a response, `last_ping` is updated
before the `success` check; `success=false` maps to a raised
`RuntimeError` carrying the server's message; every exception inside the
`try` also downgrades the record's status to `error`. -/
def callToolBody (env : String → ServerHttp) (now : ℚ) (server tool : String)
    (st : ManagerState) : BodyOut String :=
  if is_server_connected st server = false then
    ⟨st, .error ⟨"ConnectionError", "Server " ++ server ++ " is not connected"⟩, 0⟩
  else
    match dlookup st.base_urls server with
    | none => ⟨st, .error ⟨"KeyError", server⟩, 0⟩
    | some _ =>
      match (env server).toolCall tool with
      | .error e => ⟨setStatusM st server ConnectionStatus.ERROR (some e.msg), .error e, 1⟩
      | .ok resp =>
        let st1 := setLastPingM st server now
        if resp.success then ⟨st1, .ok (resp.payload.getD ""), 1⟩
        else
          let e : PyErr := ⟨"RuntimeError", resp.error.getD "Unknown error"⟩
          ⟨setStatusM st1 server ConnectionStatus.ERROR (some e.msg), .error e, 1⟩

/-- The body of `HTTPMCPManager.read_resource` (lines 276-313), same
shape as `call_tool` with the `content` payload field. -/
def readResourceBody (env : String → ServerHttp) (now : ℚ) (server uri : String)
    (st : ManagerState) : BodyOut String :=
  if is_server_connected st server = false then
    ⟨st, .error ⟨"ConnectionError", "Server " ++ server ++ " is not connected"⟩, 0⟩
  else
    match dlookup st.base_urls server with
    | none => ⟨st, .error ⟨"KeyError", server⟩, 0⟩
    | some _ =>
      match (env server).resourceRead uri with
      | .error e => ⟨setStatusM st server ConnectionStatus.ERROR (some e.msg), .error e, 1⟩
      | .ok resp =>
        let st1 := setLastPingM st server now
        if resp.success then ⟨st1, .ok (resp.payload.getD ""), 1⟩
        else
          let e : PyErr := ⟨"RuntimeError", resp.error.getD "Unknown error"⟩
          ⟨setStatusM st1 server ConnectionStatus.ERROR (some e.msg), .error e, 1⟩

/-- The body of `HTTPMCPManager.get_prompt` (lines 316-356), same shape
as `call_tool` with the `prompt` payload field. -/
def getPromptBody (env : String → ServerHttp) (now : ℚ) (server pname : String)
    (st : ManagerState) : BodyOut String :=
  if is_server_connected st server = false then
    ⟨st, .error ⟨"ConnectionError", "Server " ++ server ++ " is not connected"⟩, 0⟩
  else
    match dlookup st.base_urls server with
    | none => ⟨st, .error ⟨"KeyError", server⟩, 0⟩
    | some _ =>
      match (env server).promptGet pname with
      | .error e => ⟨setStatusM st server ConnectionStatus.ERROR (some e.msg), .error e, 1⟩
      | .ok resp =>
        let st1 := setLastPingM st server now
        if resp.success then ⟨st1, .ok (resp.payload.getD ""), 1⟩
        else
          let e : PyErr := ⟨"RuntimeError", resp.error.getD "Unknown error"⟩
          ⟨setStatusM st1 server ConnectionStatus.ERROR (some e.msg), .error e, 1⟩

/-- The manager state together with the three breaker instances created
by the decorators on `call_tool`, `read_resource` and `get_prompt`
(lines 232, 275, 315): one breaker per decorated method, shared by all
invocations of that method regardless of the server argument. -/
structure SysState where
  mgr : ManagerState
  cb_call_tool : CBState
  cb_read_resource : CBState
  cb_get_prompt : CBState
deriving DecidableEq, Repr

/-- The breaker configuration on the three RPC methods:
`CircuitBreaker(failure_threshold=3, recovery_timeout=30.0)`. -/
def rpcBreakerCfg : CBConfig := ⟨3, 30⟩

/-- Result of one wrapped RPC invocation. -/
structure CallOut (T : Type) where
  sys : SysState
  result : Except PyErr T
  posts : Nat
  bodyInvoked : Bool
deriving DecidableEq, Repr

/-- `HTTPMCPManager.call_tool` with its breaker decorator, at wall-clock
time `now`. -/
def call_tool (env : String → ServerHttp) (now : ℚ) (sys : SysState)
    (server tool : String) : CallOut String :=
  match cbRun rpcBreakerCfg now sys.cb_call_tool
      (fun p =>
        let b := callToolBody env now server tool p.1
        ((b.mgr, p.2 + b.posts), b.result))
      (sys.mgr, 0) with
  | (cb', p, res, invoked) =>
    ⟨{ sys with mgr := p.1, cb_call_tool := cb' }, res, p.2, invoked⟩

/-- `HTTPMCPManager.read_resource` with its breaker decorator. -/
def read_resource (env : String → ServerHttp) (now : ℚ) (sys : SysState)
    (server uri : String) : CallOut String :=
  match cbRun rpcBreakerCfg now sys.cb_read_resource
      (fun p =>
        let b := readResourceBody env now server uri p.1
        ((b.mgr, p.2 + b.posts), b.result))
      (sys.mgr, 0) with
  | (cb', p, res, invoked) =>
    ⟨{ sys with mgr := p.1, cb_read_resource := cb' }, res, p.2, invoked⟩

/-- `HTTPMCPManager.get_prompt` with its breaker decorator. -/
def get_prompt (env : String → ServerHttp) (now : ℚ) (sys : SysState)
    (server pname : String) : CallOut String :=
  match cbRun rpcBreakerCfg now sys.cb_get_prompt
      (fun p =>
        let b := getPromptBody env now server pname p.1
        ((b.mgr, p.2 + b.posts), b.result))
      (sys.mgr, 0) with
  | (cb', p, res, invoked) =>
    ⟨{ sys with mgr := p.1, cb_get_prompt := cb' }, res, p.2, invoked⟩

/-! ## Helper lemmas -/

theorem dlookup_isSome_mem_dkeys {α : Type} (d : List (String × α)) (k : String) :
    (dlookup d k).isSome = true ↔ k ∈ dkeys d := by
  induction d with
  | nil => simp [dlookup, dkeys]
  | cons hd tl ih =>
    obtain ⟨k0, v0⟩ := hd
    by_cases h0 : k0 = k
    · subst h0; simp [dlookup, dkeys]
    · have : ¬ k = k0 := fun h => h0 h.symm
      simp [dlookup, dkeys, h0, this, ih]

theorem introspectBody_base_urls (env : String → ServerHttp) (i : Nat)
    (st : ManagerState) (name : String) :
    (introspectBody env i st name).1.base_urls = st.base_urls := by
  unfold introspectBody
  repeat' split
  all_goals rfl

theorem introspectBody_conn_other (env : String → ServerHttp) (i : Nat)
    (st : ManagerState) (name m : String) (h : ¬ name = m) :
    dlookup (introspectBody env i st name).1.connections m = dlookup st.connections m := by
  unfold introspectBody
  repeat' split
  all_goals simp [dlookup_dictModify, h]

theorem introspectBody_conn_isSome (env : String → ServerHttp) (i : Nat)
    (st : ManagerState) (name m : String) :
    (dlookup (introspectBody env i st name).1.connections m).isSome =
      (dlookup st.connections m).isSome := by
  unfold introspectBody
  repeat' split
  all_goals rcases eq_or_ne name m with hm | hm
  all_goals simp [dlookup_dictModify, hm]

theorem retryRunSt_inv {σ E α : Type} (P : σ → Prop) (f : Nat → σ → σ × Except E α)
    (hf : ∀ i s, P s → P (f i s).1) :
    ∀ (a fuel : Nat) (s : σ), P s → P (retryRunSt f a fuel s).1 := by
  intro a fuel
  induction fuel generalizing a with
  | zero => intro s hs; exact hf a s hs
  | succ n ih =>
    intro s hs
    unfold retryRunSt
    have h' : P (f a s).1 := hf a s hs
    rcases hfa : f a s with ⟨s', r⟩
    rw [hfa] at h'
    cases r with
    | ok v => simpa using h'
    | error e => exact ih (a + 1) s' h'

theorem introspectRetried_base_urls (env : String → ServerHttp) (st : ManagerState)
    (name : String) :
    (introspectRetried env st name).1.base_urls = st.base_urls :=
  retryRunSt_inv (fun s => s.base_urls = st.base_urls)
    (fun i s => introspectBody env i s name)
    (fun i s hs => by
      show (introspectBody env i s name).1.base_urls = st.base_urls
      rw [introspectBody_base_urls]; exact hs) 0 2 st rfl

theorem introspectRetried_conn_other (env : String → ServerHttp) (st : ManagerState)
    (name m : String) (h : ¬ name = m) :
    dlookup (introspectRetried env st name).1.connections m = dlookup st.connections m :=
  retryRunSt_inv (fun s => dlookup s.connections m = dlookup st.connections m)
    (fun i s => introspectBody env i s name)
    (fun i s hs => by
      show dlookup (introspectBody env i s name).1.connections m = dlookup st.connections m
      rw [introspectBody_conn_other env i s name m h]; exact hs) 0 2 st rfl

theorem introspectRetried_conn_isSome (env : String → ServerHttp) (st : ManagerState)
    (name m : String) :
    (dlookup (introspectRetried env st name).1.connections m).isSome =
      (dlookup st.connections m).isSome :=
  retryRunSt_inv
    (fun s => (dlookup s.connections m).isSome = (dlookup st.connections m).isSome)
    (fun i s => introspectBody env i s name)
    (fun i s hs => by
      show (dlookup (introspectBody env i s name).1.connections m).isSome =
        (dlookup st.connections m).isSome
      rw [introspectBody_conn_isSome]; exact hs) 0 2 st rfl

theorem connect_server_conn_self (env : String → ServerHttp) (st : ManagerState)
    (name : String) (cfg : ServerConfig) :
    ∃ c, dlookup (connect_server env st name cfg).1.connections name = some c ∧
      (c.status = ConnectionStatus.CONNECTED ∨ c.status = ConnectionStatus.ERROR) := by
  unfold connect_server
  cases henv : (env name).health with
  | error e =>
    simp only [setStatusM]
    simp [dlookup_dictModify, dlookup_dictSet, Conn.update_status]
  | ok u =>
    simp only []
    rcases hri : introspectRetried env
        { st with
          connections := dictSet st.connections name
            { server_name := name, transport_type := "http",
              status := ConnectionStatus.CONNECTING, error_message := none,
              host := cfg.host, port := cfg.port, last_ping := none, capabilities := none },
          base_urls := dictSet st.base_urls name
            ("http://" ++ cfg.host ++ ":" ++ toString cfg.port) } name with ⟨st3, r⟩
    have hsome : (dlookup st3.connections name).isSome = true := by
      have := introspectRetried_conn_isSome env
        { st with
          connections := dictSet st.connections name
            { server_name := name, transport_type := "http",
              status := ConnectionStatus.CONNECTING, error_message := none,
              host := cfg.host, port := cfg.port, last_ping := none, capabilities := none },
          base_urls := dictSet st.base_urls name
            ("http://" ++ cfg.host ++ ":" ++ toString cfg.port) } name name
      rw [hri] at this
      simpa [dlookup_dictSet] using this
    rcases Option.isSome_iff_exists.mp hsome with ⟨c3, hc3⟩
    cases r with
    | error e =>
      refine ⟨c3.update_status ConnectionStatus.ERROR (some e.msg), ?_, Or.inr rfl⟩
      simp [hri, setStatusM, dlookup_dictModify, hc3, Conn.update_status]
    | ok v =>
      refine ⟨c3.update_status ConnectionStatus.CONNECTED none, ?_, Or.inl rfl⟩
      simp [hri, setStatusM, dlookup_dictModify, hc3, Conn.update_status]

theorem connect_server_conn_other (env : String → ServerHttp) (st : ManagerState)
    (name : String) (cfg : ServerConfig) (m : String) (h : ¬ name = m) :
    dlookup (connect_server env st name cfg).1.connections m = dlookup st.connections m := by
  unfold connect_server
  cases henv : (env name).health with
  | error e => simp [setStatusM, dlookup_dictModify, dlookup_dictSet, h]
  | ok u =>
    rcases hri : introspectRetried env
        { st with
          connections := dictSet st.connections name
            { server_name := name, transport_type := "http",
              status := ConnectionStatus.CONNECTING, error_message := none,
              host := cfg.host, port := cfg.port, last_ping := none, capabilities := none },
          base_urls := dictSet st.base_urls name
            ("http://" ++ cfg.host ++ ":" ++ toString cfg.port) } name with ⟨st3, r⟩
    have hother : dlookup st3.connections m = dlookup st.connections m := by
      have := introspectRetried_conn_other env
        { st with
          connections := dictSet st.connections name
            { server_name := name, transport_type := "http",
              status := ConnectionStatus.CONNECTING, error_message := none,
              host := cfg.host, port := cfg.port, last_ping := none, capabilities := none },
          base_urls := dictSet st.base_urls name
            ("http://" ++ cfg.host ++ ":" ++ toString cfg.port) } name m h
      rw [hri] at this
      simpa [dlookup_dictSet, h] using this
    cases r with
    | error e => simp [hri, setStatusM, dlookup_dictModify, h, hother]
    | ok v => simp [hri, setStatusM, dlookup_dictModify, h, hother]

theorem initManager_not_mem (env : String → ServerHttp)
    (l : List (String × ServerConfig)) (st : ManagerState) (m : String)
    (h : m ∉ l.map Prod.fst) :
    dlookup (initManager env l st).connections m = dlookup st.connections m := by
  induction l generalizing st with
  | nil => rfl
  | cons p rest ih =>
    simp only [List.map_cons, List.mem_cons] at h
    push_neg at h
    have h1 : ¬ p.1 = m := fun hh => h.1 hh.symm
    calc dlookup (initManager env (p :: rest) st).connections m
        = dlookup (initManager env rest (connect_server env st p.1 p.2).1).connections m := rfl
      _ = dlookup (connect_server env st p.1 p.2).1.connections m := ih _ h.2
      _ = dlookup st.connections m := connect_server_conn_other env st p.1 p.2 m h1

/-! ## Claims C1, C9, C4 -/

/-- Claim C1: after `initialize()` every configured server's connection
record exists with status `connected` or `error` — never `connecting` —
and a failure while connecting one server (caught and logged inside the
loop) does not prevent the connect attempts for the remaining configured
servers: the conclusion holds for every configured name whatever the
other servers' outcomes. -/
theorem init_c1 (env : String → ServerHttp) (servers : List (String × ServerConfig))
    (st : ManagerState) (name : String) (h : name ∈ servers.map Prod.fst) :
    ∃ c, dlookup (initManager env servers st).connections name = some c ∧
      (c.status = ConnectionStatus.CONNECTED ∨ c.status = ConnectionStatus.ERROR) := by
  induction servers generalizing st with
  | nil => simp at h
  | cons p rest ih =>
    by_cases hm : name ∈ rest.map Prod.fst
    · exact ih (connect_server env st p.1 p.2).1 hm
    · have hname : p.1 = name := by
        simp only [List.map_cons, List.mem_cons] at h
        rcases h with h | h
        · exact h.symm
        · exact absurd h hm
      subst hname
      have hpres := initManager_not_mem env rest (connect_server env st p.1 p.2).1 p.1 hm
      have hself := connect_server_conn_self env st p.1 p.2
      rcases hself with ⟨c, hc, hst⟩
      refine ⟨c, ?_, hst⟩
      calc dlookup (initManager env (p :: rest) st).connections p.1
          = dlookup (initManager env rest (connect_server env st p.1 p.2).1).connections p.1 := rfl
        _ = dlookup (connect_server env st p.1 p.2).1.connections p.1 := hpres
        _ = some c := hc

/-- An environment in which every server is healthy and fully
introspectable. -/
def envOkAll : String → ServerHttp := fun _ =>
  { health := .ok ()
    toolsList := fun _ => .ok ["add_task"]
    resourcesList := fun _ => .ok []
    promptsList := fun _ => .ok []
    toolCall := fun _ => .ok ⟨true, some "done", none⟩
    resourceRead := fun _ => .ok ⟨true, some "", none⟩
    promptGet := fun _ => .ok ⟨true, some "", none⟩ }

/-- Witness for C1: the repository's configured servers, all healthy. -/
theorem init_c1_witness :
    ∃ c, dlookup (initManager envOkAll configServers ManagerState.empty).connections
        "personal_assistant" = some c ∧
      (c.status = ConnectionStatus.CONNECTED ∨ c.status = ConnectionStatus.ERROR) :=
  init_c1 envOkAll configServers ManagerState.empty "personal_assistant"
    (by simp [configServers])

/-- Claim C9: `connect_server` constructs the connection record with
keyword arguments `server_name`, `transport_type`, `connection_status`,
but the `MCPConnection` dataclass of `shared/models.py` accepts only
`name`, `host`, `port`, `status`, `error_message`, `tools`, `resources`,
`prompts` and defines neither `update_status` nor `is_connected` nor
`last_ping`; hence against the real dataclass every `connect_server`
invocation raises `TypeError` at record construction, before any record
is stored in the connections map. -/
theorem models_c9 :
    dataclassCtorCheck mcpConnectionFields mcpConnectionRequired connectServerCtorKwargs
      = Except.error ⟨"TypeError", "unexpected keyword argument server_name"⟩
    ∧ mcpConnectionFields.contains "server_name" = false
    ∧ mcpConnectionFields.contains "transport_type" = false
    ∧ mcpConnectionFields.contains "connection_status" = false
    ∧ mcpConnectionFields.contains "last_ping" = false
    ∧ mcpConnectionMethods.contains "update_status" = false
    ∧ mcpConnectionMethods.contains "is_connected" = false
    ∧ ∀ (env : String → ServerHttp) (st : ManagerState) (name : String) (cfg : ServerConfig),
        connect_server_actual env st name cfg =
          (st, Except.error ⟨"TypeError", "unexpected keyword argument server_name"⟩) := by
  refine ⟨by decide, by decide, by decide, by decide, by decide, by decide, by decide, ?_⟩
  intro env st name cfg
  have h : dataclassCtorCheck mcpConnectionFields mcpConnectionRequired connectServerCtorKwargs
      = Except.error ⟨"TypeError", "unexpected keyword argument server_name"⟩ := by decide
  simp [connect_server_actual, h]

/-- A prompts-endpoint failure makes an introspection attempt fail with
the manager state untouched. -/
theorem introspect_prompts_fail (env : String → ServerHttp) (st : ManagerState)
    (name : String) (i : Nat) (e : PyErr)
    (hp : (env name).promptsList i = .error e) :
    ∃ er, introspectBody env i st name = (st, Except.error er) := by
  unfold introspectBody
  split
  · exact ⟨_, rfl⟩
  · split
    · exact ⟨_, rfl⟩
    · split
      · exact ⟨_, rfl⟩
      · rw [hp]
        exact ⟨_, rfl⟩

/-- Claim C4: introspection's replacement of the cached capability set is
all-or-nothing — a failure on the third (`prompts`) call leaves the
server's `capabilities_cache` entry (and the whole manager state)
exactly as before, for the single attempt and for the retried
`_introspect_server` as a whole, never a partial merge of tools and
resources. -/
theorem introspect_c4 (env : String → ServerHttp) (st : ManagerState) (name : String)
    (e0 e1 e2 : PyErr)
    (hp0 : (env name).promptsList 0 = .error e0)
    (hp1 : (env name).promptsList 1 = .error e1)
    (hp2 : (env name).promptsList 2 = .error e2) :
    (introspectBody env 0 st name).1 = st
    ∧ dlookup (introspectBody env 0 st name).1.capabilities_cache name =
        dlookup st.capabilities_cache name
    ∧ (introspectRetried env st name).1 = st
    ∧ dlookup (introspectRetried env st name).1.capabilities_cache name =
        dlookup st.capabilities_cache name
    ∧ (introspectRetried env st name).2.isOk = false := by
  obtain ⟨er0, hb0⟩ := introspect_prompts_fail env st name 0 e0 hp0
  obtain ⟨er1, hb1⟩ := introspect_prompts_fail env st name 1 e1 hp1
  obtain ⟨er2, hb2⟩ := introspect_prompts_fail env st name 2 e2 hp2
  have hr : introspectRetried env st name = (st, Except.error er2) := by
    unfold introspectRetried retryRunSt
    simp only [hb0]
    unfold retryRunSt
    simp only [hb1]
    unfold retryRunSt
    simp only [hb2]
  refine ⟨?_, ?_, ?_, ?_, ?_⟩
  · rw [hb0]
  · rw [hb0]
  · rw [hr]
  · rw [hr]
  · rw [hr]; rfl

/-- The connected server and capability cache used by several
witnesses. -/
def connOkW : Conn :=
  { server_name := "s", transport_type := "http",
    status := ConnectionStatus.CONNECTED, error_message := none,
    host := "127.0.0.1", port := 8001, last_ping := none, capabilities := none }

/-- An environment whose `prompts` endpoint always fails. -/
def envPromptsFail : String → ServerHttp := fun _ =>
  { health := .ok ()
    toolsList := fun _ => .ok ["t1"]
    resourcesList := fun _ => .ok ["r1"]
    promptsList := fun _ => .error ⟨"HTTPStatusError", "500"⟩
    toolCall := fun _ => .ok ⟨true, some "", none⟩
    resourceRead := fun _ => .ok ⟨true, some "", none⟩
    promptGet := fun _ => .ok ⟨true, some "", none⟩ }

/-- A manager state with one connected, previously introspected server. -/
def stW : ManagerState :=
  { connections := [("s", connOkW)]
    base_urls := [("s", "http://127.0.0.1:8001")]
    capabilities_cache := [("s", ⟨["old_tool"], ["old_res"], ["old_prompt"]⟩)] }

/-- Witness for C4: a concrete prompts failure over a previous cache
snapshot. -/
theorem introspect_c4_witness :
    (introspectBody envPromptsFail 0 stW "s").1 = stW
    ∧ dlookup (introspectBody envPromptsFail 0 stW "s").1.capabilities_cache "s" =
        dlookup stW.capabilities_cache "s"
    ∧ (introspectRetried envPromptsFail stW "s").1 = stW
    ∧ dlookup (introspectRetried envPromptsFail stW "s").1.capabilities_cache "s" =
        dlookup stW.capabilities_cache "s"
    ∧ (introspectRetried envPromptsFail stW "s").2.isOk = false :=
  introspect_c4 envPromptsFail stW "s" ⟨"HTTPStatusError", "500"⟩ ⟨"HTTPStatusError", "500"⟩
    ⟨"HTTPStatusError", "500"⟩ rfl rfl rfl

/-! ## Claims C8, C10 -/

/-- A key absent from a dictionary is absent from any filter-and-map
projection of it. -/
theorem dlookup_filter_map_none (l : List (String × Capabilities))
    (p : String × Capabilities → Bool) (g : String × Capabilities → List String)
    (n : String) (h : dlookup l n = none) :
    dlookup ((l.filter p).map (fun kv => (kv.1, g kv))) n = none := by
  induction l with
  | nil => rfl
  | cons hd tl ih =>
    obtain ⟨k, v⟩ := hd
    by_cases hk : k = n
    · simp [dlookup, hk] at h
    · have h' : dlookup tl n = none := by simpa [dlookup, hk] using h
      by_cases hp : p (k, v)
      · simp [List.filter_cons, hp, dlookup, hk, ih h']
      · simp [List.filter_cons, hp, ih h']

/-- Claim C8: for a server with a connection record,
`disconnect_server` sets the record's status to `disconnected` and
removes the base-URL mapping and the capability cache entry, so
`get_available_tools` run immediately afterwards has no entry for that
server while `get_connection_status` still returns the (now
disconnected) record rather than `none`. -/
theorem disconnect_c8 (st : ManagerState) (name : String) (c : Conn)
    (h : dlookup st.connections name = some c) :
    get_connection_status (disconnect_server st name) name =
        some (c.update_status ConnectionStatus.DISCONNECTED none)
    ∧ dlookup (disconnect_server st name).base_urls name = none
    ∧ dlookup (disconnect_server st name).capabilities_cache name = none
    ∧ dlookup (get_available_tools (disconnect_server st name)) name = none := by
  have hcache : dlookup (disconnect_server st name).capabilities_cache name = none := by
    simp [disconnect_server, setStatusM, dlookup_dictErase]
  refine ⟨?_, ?_, hcache, ?_⟩
  · simp [get_connection_status, disconnect_server, setStatusM, dlookup_dictModify, h]
  · simp [disconnect_server, setStatusM, dlookup_dictErase]
  · exact dlookup_filter_map_none _ _ _ name hcache

/-- Witness for C8 at the concrete connected-server state `stW`. -/
theorem disconnect_c8_witness :
    get_connection_status (disconnect_server stW "s") "s" =
        some (connOkW.update_status ConnectionStatus.DISCONNECTED none)
    ∧ dlookup (disconnect_server stW "s").base_urls "s" = none
    ∧ dlookup (disconnect_server stW "s").capabilities_cache "s" = none
    ∧ dlookup (get_available_tools (disconnect_server stW "s")) "s" = none :=
  disconnect_c8 stW "s" connOkW rfl

/-- The bulk-refresh fold only ever introspects names drawn from the
iterated key list. -/
theorem refresh_fold_subset (env : String → ServerHttp) (l : List String)
    (acc : ManagerState × List String) :
    ∀ n, n ∈ (l.foldl
        (fun acc name =>
          if is_server_connected acc.1 name then
            ((introspectRetried env acc.1 name).1, acc.2 ++ [name])
          else acc) acc).2 →
      n ∈ acc.2 ∨ n ∈ l := by
  induction l generalizing acc with
  | nil => intro n h; exact Or.inl h
  | cons x rest ih =>
    intro n h
    rw [List.foldl_cons] at h
    by_cases hx : is_server_connected acc.1 x
    · rw [if_pos hx] at h
      rcases ih _ n h with h' | h'
      · rcases List.mem_append.mp h' with h'' | h''
        · exact Or.inl h''
        · simp at h''
          exact Or.inr (by simp [h''])
      · exact Or.inr (List.mem_cons_of_mem x h')
    · rw [if_neg hx] at h
      rcases ih _ n h with h' | h'
      · exact Or.inl h'
      · exact Or.inr (List.mem_cons_of_mem x h')

/-- Claim C10: `refresh_capabilities(name)` on a server that is not
connected (or has no record) returns normally, performing no
introspection and leaving the state unchanged; the bulk form iterates
only servers present in the base-URL map, so any server absent from it —
in particular one whose base URL was removed by `disconnect_server` —
is silently skipped. -/
theorem refresh_c10 (env : String → ServerHttp) (st : ManagerState) (name q : String)
    (h : is_server_connected st name = false)
    (hq : q ∉ dkeys st.base_urls) :
    refresh_capabilities env st (some name) = (st, Except.ok (), [])
    ∧ (∀ n, n ∈ (refreshAll env st).2 → n ∈ dkeys st.base_urls)
    ∧ q ∉ (refreshAll env st).2
    ∧ q ∉ (refreshAll env (disconnect_server st q)).2 := by
  have hsub : ∀ n, n ∈ (refreshAll env st).2 → n ∈ dkeys st.base_urls := by
    intro n hn
    rcases refresh_fold_subset env (dkeys st.base_urls) (st, []) n hn with h' | h'
    · simp at h'
    · exact h'
  refine ⟨?_, hsub, fun hmem => hq (hsub q hmem), ?_⟩
  · simp [refresh_capabilities, refreshOne, h]
  · intro hmem
    have hq2 : q ∉ dkeys (disconnect_server st q).base_urls := by
      intro hk
      have := (dlookup_isSome_mem_dkeys (disconnect_server st q).base_urls q).mpr hk
      rw [show (disconnect_server st q).base_urls = dictErase st.base_urls q from rfl] at this
      simp [dlookup_dictErase] at this
    have hsub2 : ∀ n, n ∈ (refreshAll env (disconnect_server st q)).2 →
        n ∈ dkeys (disconnect_server st q).base_urls := by
      intro n hn
      rcases refresh_fold_subset env (dkeys (disconnect_server st q).base_urls)
          ((disconnect_server st q), []) n hn with h' | h'
      · simp at h'
      · exact h'
    exact hq2 (hsub2 q hmem)

/-- Witness for C10: a disconnected server in an otherwise empty
manager. -/
theorem refresh_c10_witness :
    refresh_capabilities envOkAll ManagerState.empty (some "s") =
        (ManagerState.empty, Except.ok (), [])
    ∧ (∀ n, n ∈ (refreshAll envOkAll ManagerState.empty).2 →
        n ∈ dkeys ManagerState.empty.base_urls)
    ∧ "gone" ∉ (refreshAll envOkAll ManagerState.empty).2
    ∧ "gone" ∉ (refreshAll envOkAll (disconnect_server ManagerState.empty "gone")).2 :=
  refresh_c10 envOkAll ManagerState.empty "s" "gone" rfl (by simp [ManagerState.empty, dkeys])

/-! ## Claim C5 -/

/-- Claim C5: for a server whose status is not `connected` (in
particular one whose `/health` probe failed, which leaves it in `error`,
never `connected`), `call_tool`, `read_resource` and `get_prompt` fail
immediately with the "not connected" `ConnectionError`, performing no
HTTP POST, no retry, and leaving the manager state unchanged (the
breakers on these methods being in their normal `CLOSED` state). -/
theorem notconnected_c5 (env : String → ServerHttp) (now : ℚ) (sys : SysState)
    (server tool uri pname : String)
    (env2 : String → ServerHttp) (st2 : ManagerState) (name2 : String)
    (cfg2 : ServerConfig) (e2 : PyErr)
    (hns : is_server_connected sys.mgr server = false)
    (h1 : sys.cb_call_tool.state = "CLOSED")
    (h2 : sys.cb_read_resource.state = "CLOSED")
    (h3 : sys.cb_get_prompt.state = "CLOSED")
    (hh : (env2 name2).health = .error e2) :
    ((call_tool env now sys server tool).result =
        .error ⟨"ConnectionError", "Server " ++ server ++ " is not connected"⟩
      ∧ (call_tool env now sys server tool).posts = 0
      ∧ (call_tool env now sys server tool).sys.mgr = sys.mgr)
    ∧ ((read_resource env now sys server uri).result =
        .error ⟨"ConnectionError", "Server " ++ server ++ " is not connected"⟩
      ∧ (read_resource env now sys server uri).posts = 0
      ∧ (read_resource env now sys server uri).sys.mgr = sys.mgr)
    ∧ ((get_prompt env now sys server pname).result =
        .error ⟨"ConnectionError", "Server " ++ server ++ " is not connected"⟩
      ∧ (get_prompt env now sys server pname).posts = 0
      ∧ (get_prompt env now sys server pname).sys.mgr = sys.mgr)
    ∧ ((connect_server env2 st2 name2 cfg2).2 = .error e2
      ∧ is_server_connected (connect_server env2 st2 name2 cfg2).1 name2 = false) := by
  refine ⟨?_, ?_, ?_, ?_⟩
  · refine ⟨?_, ?_, ?_⟩ <;>
      simp [call_tool, cbRun, h1, callToolBody, hns, cbOnFailure]
  · refine ⟨?_, ?_, ?_⟩ <;>
      simp [read_resource, cbRun, h2, readResourceBody, hns, cbOnFailure]
  · refine ⟨?_, ?_, ?_⟩ <;>
      simp [get_prompt, cbRun, h3, getPromptBody, hns, cbOnFailure]
  · constructor
    · simp [connect_server, hh]
    · simp [connect_server, hh, setStatusM, is_server_connected, dlookup_dictModify,
        dlookup_dictSet, Conn.update_status, Conn.is_connected,
        ConnectionStatus.ERROR, ConnectionStatus.CONNECTED]

/-- An environment whose health probe never returns 2xx. -/
def envHealthFail : String → ServerHttp := fun _ =>
  { health := .error ⟨"ConnectError", "connection refused"⟩
    toolsList := fun _ => .ok []
    resourcesList := fun _ => .ok []
    promptsList := fun _ => .ok []
    toolCall := fun _ => .ok ⟨true, some "", none⟩
    resourceRead := fun _ => .ok ⟨true, some "", none⟩
    promptGet := fun _ => .ok ⟨true, some "", none⟩ }

/-- A freshly constructed system: empty manager, all breakers fresh. -/
def sysFreshEmpty : SysState :=
  ⟨ManagerState.empty, CBState.fresh, CBState.fresh, CBState.fresh⟩

/-- Witness for C5: RPCs against an unknown server of a fresh manager,
and a connect attempt against an unhealthy server. -/
theorem notconnected_c5_witness :
    ((call_tool envOkAll 0 sysFreshEmpty "x" "t").result =
        .error ⟨"ConnectionError", "Server x is not connected"⟩
      ∧ (call_tool envOkAll 0 sysFreshEmpty "x" "t").posts = 0
      ∧ (call_tool envOkAll 0 sysFreshEmpty "x" "t").sys.mgr = sysFreshEmpty.mgr)
    ∧ ((read_resource envOkAll 0 sysFreshEmpty "x" "u").result =
        .error ⟨"ConnectionError", "Server x is not connected"⟩
      ∧ (read_resource envOkAll 0 sysFreshEmpty "x" "u").posts = 0
      ∧ (read_resource envOkAll 0 sysFreshEmpty "x" "u").sys.mgr = sysFreshEmpty.mgr)
    ∧ ((get_prompt envOkAll 0 sysFreshEmpty "x" "p").result =
        .error ⟨"ConnectionError", "Server x is not connected"⟩
      ∧ (get_prompt envOkAll 0 sysFreshEmpty "x" "p").posts = 0
      ∧ (get_prompt envOkAll 0 sysFreshEmpty "x" "p").sys.mgr = sysFreshEmpty.mgr)
    ∧ ((connect_server envHealthFail ManagerState.empty "b" ⟨"b", "http", "127.0.0.1", 9⟩).2 =
        .error ⟨"ConnectError", "connection refused"⟩
      ∧ is_server_connected
          (connect_server envHealthFail ManagerState.empty "b" ⟨"b", "http", "127.0.0.1", 9⟩).1
          "b" = false) :=
  notconnected_c5 envOkAll 0 sysFreshEmpty "x" "t" "u" "p" envHealthFail
    ManagerState.empty "b" ⟨"b", "http", "127.0.0.1", 9⟩ ⟨"ConnectError", "connection refused"⟩
    rfl rfl rfl rfl rfl

/-! ## Claim C7 (corrected) -/

/-- An environment whose tool-call endpoint returns 2xx with a
`success:false` envelope carrying the message "boom". -/
def envC7 : String → ServerHttp := fun _ =>
  { health := .ok ()
    toolsList := fun _ => .ok []
    resourcesList := fun _ => .ok []
    promptsList := fun _ => .ok []
    toolCall := fun _ => .ok ⟨false, none, some "boom"⟩
    resourceRead := fun _ => .ok ⟨true, some "", none⟩
    promptGet := fun _ => .ok ⟨true, some "", none⟩ }

/-- The system state around `stW`: one connected server `s`, fresh
breakers. -/
def sysW : SysState := ⟨stW, CBState.fresh, CBState.fresh, CBState.fresh⟩

/-- Counterexample to C7 as stated: a `call_tool` whose POST completes
with 2xx and `success=false` (no transport-level failure) nevertheless
downgrades the connection's status to `error` — the raised `RuntimeError`
is caught by the same `except` clause as transport errors
(http_mcp_manager.py lines 263-273) — contradicting "only
transport-level failures ... downgrade the Connection's status". -/
theorem calltool_c7_counterexample :
    (call_tool envC7 5 sysW "s" "t").result = .error ⟨"RuntimeError", "boom"⟩
    ∧ dlookup (call_tool envC7 5 sysW "s" "t").sys.mgr.connections "s" =
        some { connOkW with status := ConnectionStatus.ERROR,
                            error_message := some "boom", last_ping := some 5 } := by
  constructor <;> rfl

/-- Claim C7 as amended: a 2xx response with `success=false` raises an
application error carrying the server-provided message verbatim AND (the
amendment) also downgrades the connection's status to `error` and
updates `last_ping`, because the status write in the `except` clause and
the `last_ping` write before the `success` check both apply to it;
transport-level failures downgrade the status as claimed; a successful
call updates `last_ping` and leaves the status untouched. -/
theorem calltool_c7_amended (env : String → ServerHttp) (now : ℚ) (sys : SysState)
    (server ta tb tc : String) (c : Conn) (u : String)
    (msgA : String) (pA : Option String) (e : PyErr) (res : String) (x : Option String)
    (hc : dlookup sys.mgr.connections server = some c)
    (hcs : c.status = ConnectionStatus.CONNECTED)
    (hu : dlookup sys.mgr.base_urls server = some u)
    (hcb : sys.cb_call_tool.state = "CLOSED")
    (ha : (env server).toolCall ta = .ok ⟨false, pA, some msgA⟩)
    (hb : (env server).toolCall tb = .error e)
    (hok : (env server).toolCall tc = .ok ⟨true, some res, x⟩) :
    ((call_tool env now sys server ta).result = .error ⟨"RuntimeError", msgA⟩
      ∧ dlookup (call_tool env now sys server ta).sys.mgr.connections server =
          some { c with status := ConnectionStatus.ERROR,
                        error_message := some msgA, last_ping := some now })
    ∧ ((call_tool env now sys server tb).result = .error e
      ∧ dlookup (call_tool env now sys server tb).sys.mgr.connections server =
          some { c with status := ConnectionStatus.ERROR, error_message := some e.msg })
    ∧ ((call_tool env now sys server tc).result = .ok res
      ∧ dlookup (call_tool env now sys server tc).sys.mgr.connections server =
          some { c with last_ping := some now }) := by
  have hconn : is_server_connected sys.mgr server = true := by
    simp [is_server_connected, hc, Conn.is_connected, hcs, ConnectionStatus.CONNECTED]
  refine ⟨⟨?_, ?_⟩, ⟨?_, ?_⟩, ⟨?_, ?_⟩⟩ <;>
    simp [call_tool, cbRun, hcb, callToolBody, hconn, hu, ha, hb, hok,
      setLastPingM, setStatusM, dlookup_dictModify, hc, Conn.update_status,
      cbOnFailure, cbOnSuccess]

/-- Witness for C7 as amended: one server, three tool names with the
three response shapes. -/
def envC7W : String → ServerHttp := fun _ =>
  { health := .ok ()
    toolsList := fun _ => .ok []
    resourcesList := fun _ => .ok []
    promptsList := fun _ => .ok []
    toolCall := fun t =>
      if t = "ta" then .ok ⟨false, none, some "boom"⟩
      else if t = "tb" then .error ⟨"ReadTimeout", "timed out"⟩
      else .ok ⟨true, some "42", none⟩
    resourceRead := fun _ => .ok ⟨true, some "", none⟩
    promptGet := fun _ => .ok ⟨true, some "", none⟩ }

/-- Witness for the amended C7 at the concrete state `stW`. -/
theorem calltool_c7_amended_witness :
    ((call_tool envC7W 5 sysW "s" "ta").result = .error ⟨"RuntimeError", "boom"⟩
      ∧ dlookup (call_tool envC7W 5 sysW "s" "ta").sys.mgr.connections "s" =
          some { connOkW with status := ConnectionStatus.ERROR,
                              error_message := some "boom", last_ping := some 5 })
    ∧ ((call_tool envC7W 5 sysW "s" "tb").result = .error ⟨"ReadTimeout", "timed out"⟩
      ∧ dlookup (call_tool envC7W 5 sysW "s" "tb").sys.mgr.connections "s" =
          some { connOkW with status := ConnectionStatus.ERROR,
                              error_message := some "timed out" })
    ∧ ((call_tool envC7W 5 sysW "s" "tc").result = .ok "42"
      ∧ dlookup (call_tool envC7W 5 sysW "s" "tc").sys.mgr.connections "s" =
          some { connOkW with last_ping := some 5 }) :=
  calltool_c7_amended envC7W 5 sysW "s" "ta" "tb" "tc" connOkW "http://127.0.0.1:8001"
    "boom" none ⟨"ReadTimeout", "timed out"⟩ "42" none
    rfl rfl rfl rfl rfl rfl rfl

/-! ## Claim C6 -/

/-- Iterated `call_tool` invocations against one server at the given
times, keeping only the evolving system state. -/
def callToolTimes (env : String → ServerHttp) (server tool : String) :
    SysState → List ℚ → SysState
  | sys, [] => sys
  | sys, t :: ts => callToolTimes env server tool (call_tool env t sys server tool).sys ts

/-- Claim C6: the breaker state is scoped per decorated operation, not
per target server — all `call_tool` invocations share one breaker
instance regardless of the `server_name` argument, so three consecutive
`call_tool` failures against connected server `A` open the breaker, and
a subsequent `call_tool` against a different server `B` within the
recovery timeout is rejected with the circuit-open error, without the
RPC body being attempted and with the whole state unchanged. -/
theorem breaker_scope_c6 (env : String → ServerHttp) (m : ManagerState)
    (A B tool tool2 : String) (t1 t2 t3 t4 : ℚ) (cA : Conn) (uA : String) (e : PyErr)
    (hA : dlookup m.connections A = some cA)
    (hcA : cA.status = ConnectionStatus.CONNECTED)
    (hurl : dlookup m.base_urls A = some uA)
    (henv : (env A).toolCall tool = .error e)
    (hAB : A ≠ B)
    (ht : t4 - t3 < 30) :
    (callToolTimes env A tool ⟨m, CBState.fresh, CBState.fresh, CBState.fresh⟩
        [t1, t2, t3]).cb_call_tool = ⟨3, some t3, "OPEN"⟩
    ∧ (call_tool env t4
        (callToolTimes env A tool ⟨m, CBState.fresh, CBState.fresh, CBState.fresh⟩
          [t1, t2, t3]) B tool2).result = .error circuitOpenError
    ∧ (call_tool env t4
        (callToolTimes env A tool ⟨m, CBState.fresh, CBState.fresh, CBState.fresh⟩
          [t1, t2, t3]) B tool2).posts = 0
    ∧ (call_tool env t4
        (callToolTimes env A tool ⟨m, CBState.fresh, CBState.fresh, CBState.fresh⟩
          [t1, t2, t3]) B tool2).bodyInvoked = false
    ∧ (call_tool env t4
        (callToolTimes env A tool ⟨m, CBState.fresh, CBState.fresh, CBState.fresh⟩
          [t1, t2, t3]) B tool2).sys =
        callToolTimes env A tool ⟨m, CBState.fresh, CBState.fresh, CBState.fresh⟩
          [t1, t2, t3] := by
  have hconn : is_server_connected m A = true := by
    simp [is_server_connected, hA, Conn.is_connected, hcA, ConnectionStatus.CONNECTED]
  have hs1 : call_tool env t1 ⟨m, CBState.fresh, CBState.fresh, CBState.fresh⟩ A tool =
      ⟨⟨setStatusM m A ConnectionStatus.ERROR (some e.msg),
        ⟨1, some t1, "CLOSED"⟩, CBState.fresh, CBState.fresh⟩, .error e, 1, true⟩ := by
    simp [call_tool, cbRun, CBState.fresh, callToolBody, hconn, hurl, henv,
      cbOnFailure, rpcBreakerCfg]
  have hnc : is_server_connected (setStatusM m A ConnectionStatus.ERROR (some e.msg)) A
      = false := by
    simp [is_server_connected, setStatusM, dlookup_dictModify, hA, Conn.update_status,
      Conn.is_connected, ConnectionStatus.ERROR, ConnectionStatus.CONNECTED]
  have hs2 : call_tool env t2
      ⟨setStatusM m A ConnectionStatus.ERROR (some e.msg),
        ⟨1, some t1, "CLOSED"⟩, CBState.fresh, CBState.fresh⟩ A tool =
      ⟨⟨setStatusM m A ConnectionStatus.ERROR (some e.msg),
        ⟨2, some t2, "CLOSED"⟩, CBState.fresh, CBState.fresh⟩,
        .error ⟨"ConnectionError", "Server " ++ A ++ " is not connected"⟩, 0, true⟩ := by
    simp [call_tool, cbRun, callToolBody, hnc, cbOnFailure, rpcBreakerCfg]
  have hs3 : call_tool env t3
      ⟨setStatusM m A ConnectionStatus.ERROR (some e.msg),
        ⟨2, some t2, "CLOSED"⟩, CBState.fresh, CBState.fresh⟩ A tool =
      ⟨⟨setStatusM m A ConnectionStatus.ERROR (some e.msg),
        ⟨3, some t3, "OPEN"⟩, CBState.fresh, CBState.fresh⟩,
        .error ⟨"ConnectionError", "Server " ++ A ++ " is not connected"⟩, 0, true⟩ := by
    simp [call_tool, cbRun, callToolBody, hnc, cbOnFailure, rpcBreakerCfg]
  have hseq : callToolTimes env A tool ⟨m, CBState.fresh, CBState.fresh, CBState.fresh⟩
      [t1, t2, t3] =
      ⟨setStatusM m A ConnectionStatus.ERROR (some e.msg),
        ⟨3, some t3, "OPEN"⟩, CBState.fresh, CBState.fresh⟩ := by
    simp [callToolTimes, hs1, hs2, hs3]
  have hreset : cbShouldAttemptReset rpcBreakerCfg ⟨3, some t3, "OPEN"⟩ t4 = false := by
    simp [cbShouldAttemptReset, rpcBreakerCfg]
    linarith
  have hs4 : call_tool env t4
      ⟨setStatusM m A ConnectionStatus.ERROR (some e.msg),
        ⟨3, some t3, "OPEN"⟩, CBState.fresh, CBState.fresh⟩ B tool2 =
      ⟨⟨setStatusM m A ConnectionStatus.ERROR (some e.msg),
        ⟨3, some t3, "OPEN"⟩, CBState.fresh, CBState.fresh⟩,
        .error circuitOpenError, 0, false⟩ := by
    simp [call_tool, cbRun, hreset]
  rw [hseq, hs4]
  exact ⟨rfl, rfl, rfl, rfl, rfl⟩

/-- Two connected servers `a` and `b`. -/
def stTwo : ManagerState :=
  { connections :=
      [("a", { connOkW with server_name := "a" }),
       ("b", { connOkW with server_name := "b", port := 8002 })]
    base_urls := [("a", "http://127.0.0.1:8001"), ("b", "http://127.0.0.1:8002")]
    capabilities_cache := [] }

/-- An environment whose tool-call POSTs always time out. -/
def envToolFail : String → ServerHttp := fun _ =>
  { health := .ok ()
    toolsList := fun _ => .ok []
    resourcesList := fun _ => .ok []
    promptsList := fun _ => .ok []
    toolCall := fun _ => .error ⟨"ReadTimeout", "timed out"⟩
    resourceRead := fun _ => .ok ⟨true, some "", none⟩
    promptGet := fun _ => .ok ⟨true, some "", none⟩ }

/-- Witness for C6: failures against `a` at times 1, 2, 3 trip the
breaker; the call against `b` at time 4 is rejected without the RPC. -/
theorem breaker_scope_c6_witness :
    (callToolTimes envToolFail "a" "t" ⟨stTwo, CBState.fresh, CBState.fresh, CBState.fresh⟩
        [1, 2, 3]).cb_call_tool = ⟨3, some 3, "OPEN"⟩
    ∧ (call_tool envToolFail 4
        (callToolTimes envToolFail "a" "t" ⟨stTwo, CBState.fresh, CBState.fresh, CBState.fresh⟩
          [1, 2, 3]) "b" "t").result = .error circuitOpenError
    ∧ (call_tool envToolFail 4
        (callToolTimes envToolFail "a" "t" ⟨stTwo, CBState.fresh, CBState.fresh, CBState.fresh⟩
          [1, 2, 3]) "b" "t").posts = 0
    ∧ (call_tool envToolFail 4
        (callToolTimes envToolFail "a" "t" ⟨stTwo, CBState.fresh, CBState.fresh, CBState.fresh⟩
          [1, 2, 3]) "b" "t").bodyInvoked = false
    ∧ (call_tool envToolFail 4
        (callToolTimes envToolFail "a" "t" ⟨stTwo, CBState.fresh, CBState.fresh, CBState.fresh⟩
          [1, 2, 3]) "b" "t").sys =
        callToolTimes envToolFail "a" "t" ⟨stTwo, CBState.fresh, CBState.fresh, CBState.fresh⟩
          [1, 2, 3] :=
  breaker_scope_c6 envToolFail stTwo "a" "b" "t" "t" 1 2 3 4
    { connOkW with server_name := "a" } "http://127.0.0.1:8001" ⟨"ReadTimeout", "timed out"⟩
    rfl rfl rfl rfl (by decide) (by norm_num)
